import Mathlib

/-!
Formal model of the nfl_board plugin (board.py and data.py) of the
nhl-led-scoreboard-plugins repository, with theorems about its
configuration parsing, the previous-day visibility rule, the tiered
refresh cycles and the display-item selection pass.

Conventions of the embedding:
* Calendar dates are modelled as integers (one per local calendar day);
  the wall clock is a day together with a time of day counted in seconds
  since midnight.  Python time-of-day objects compare lexicographically
  on (hour, minute, second, microsecond), which agrees with comparing
  these second counts because configured cutoff times always have zero
  seconds.
* Python Optional values become Option, raised exceptions become
  Except.error results, and dictionaries become association lists.
* Fields of the source classes that only feed pixel rendering (colors,
  logo data, record strings, venue) are omitted; they play no part in
  any of the logic modelled here.
-/

/-- Team as defined in data.py (dataclass NFLTeam); rendering-only fields
(location, colors, record summary and comment, logo data) are omitted. -/
structure NFLTeam where
  id : String
  display_name : String
  abbreviation : String
deriving DecidableEq

/-- Game as defined in data.py (dataclass NFLGame).  Only the calendar day
of the timestamp is kept, which is all the modelled logic inspects. -/
structure NFLGame where
  event_id : String
  date : Option Int
  home_team : NFLTeam
  away_team : NFLTeam
  status_state : String
  status_detail : String
  is_completed : Bool
  is_live : Bool
  home_score : Option Int
  away_score : Option Int
deriving DecidableEq

/-- Comparison of the two final scores, the shared tail of
NFLGame.result_token in data.py. -/
def resultFromScores (our_score opponent_score : Int) : Option String :=
  if our_score > opponent_score then some "W"
  else if our_score < opponent_score then some "L"
  else some "T"

/-- NFLGame.result_token from data.py: W, L or T for the given team once
the contest is final; none for a non-final game, a missing score or an
uninvolved team. -/
def NFLGame.result_token (g : NFLGame) (team_id : String) : Option String :=
  match g.is_completed, g.home_score, g.away_score with
  | true, some home_score, some away_score =>
    if g.home_team.id == team_id then resultFromScores home_score away_score
    else if g.away_team.id == team_id then resultFromScores away_score home_score
    else none
  | _, _, _ => none

/-- NFLGame.get_team_score from data.py. -/
def NFLGame.get_team_score (g : NFLGame) (team_id : String) : Option Int :=
  if g.home_team.id == team_id then g.home_score
  else if g.away_team.id == team_id then g.away_score
  else none

/-- NFLGame.get_opponent_score from data.py. -/
def NFLGame.get_opponent_score (g : NFLGame) (team_id : String) : Option Int :=
  if g.home_team.id == team_id then g.away_score
  else if g.away_team.id == team_id then g.home_score
  else none

/-- Value found under the team_ids key of the board configuration, after
Python's str() conversion of list elements: a single string, a list of
strings, or a value of any other type.  A missing key defaults to the
empty list in the source. -/
inductive TeamIdsValue where
  | str (s : String)
  | list (xs : List String)
  | other
deriving DecidableEq

/-- Python's str.strip on a character list: whitespace dropped from both
ends. -/
def pyStripChars (cs : List Char) : List Char :=
  ((cs.dropWhile Char.isWhitespace).reverse.dropWhile Char.isWhitespace).reverse

/-- Python's str.strip: surrounding whitespace dropped. -/
def pyStrip (s : String) : String :=
  String.mk (pyStripChars s.data)

/-- List comprehension of NFLBoardConfig._parse_team_ids: strip every
entry and keep the non-blank results. -/
def stripAndFilter (xs : List String) : List String :=
  (xs.map pyStrip).filter (fun t => decide (t ≠ ""))

/-- NFLBoardConfig._parse_team_ids from board.py: a single string is
wrapped into a one-element list, a non-list value yields the empty
list, and list entries are stripped and filtered for non-blankness. -/
def parse_team_ids : TeamIdsValue → List String
  | TeamIdsValue.str s => stripAndFilter [s]
  | TeamIdsValue.list xs => stripAndFilter xs
  | TeamIdsValue.other => []

/-- Shape check for the digit tail of a Python integer literal: digits
with single underscores allowed only between digits. -/
def pyDigitsCore : List Char → Bool
  | [] => true
  | ['_'] => false
  | '_' :: c :: rest => c.isDigit && pyDigitsCore rest
  | c :: rest => c.isDigit && pyDigitsCore rest

/-- Shape check for the digit part of a Python integer literal: at least
one digit, underscores only between digits. -/
def pyDigitsOk : List Char → Bool
  | [] => false
  | c :: rest => c.isDigit && pyDigitsCore rest

/-- Numeric value of a digit sequence, ignoring underscores. -/
def pyDigitsVal (cs : List Char) : Nat :=
  cs.foldl (fun n c => if c == '_' then n else n * 10 + (c.toNat - 48)) 0

/-- Python's int() applied to a string: surrounding whitespace is
stripped, an optional single sign precedes the digits, and underscores
may separate digits; any other shape raises ValueError (none here). -/
def pyInt? (s : String) : Option Int :=
  match pyStripChars s.data with
  | '+' :: rest => if pyDigitsOk rest then some ((pyDigitsVal rest : Nat) : Int) else none
  | '-' :: rest => if pyDigitsOk rest then some (-((pyDigitsVal rest : Nat) : Int)) else none
  | cs => if pyDigitsOk cs then some ((pyDigitsVal cs : Nat) : Int) else none

/-- Python's str.split(sep) with the single-character colon separator, on
a character list: empty input gives one empty part, and every colon
starts a new part. -/
def splitOnColon : List Char → List (List Char)
  | [] => [[]]
  | c :: rest =>
    match splitOnColon rest with
    | [] => []
    | cur :: parts => if c == ':' then [] :: cur :: parts else (c :: cur) :: parts

/-- Python's time_string.split(":") as used by _parse_cutoff_time. -/
def pySplit (s : String) : List String :=
  (splitOnColon s.data).map String.mk

/-- Python's datetime.time(hour, minute) constructor: raises ValueError
(none here) outside 0..23 hours and 0..59 minutes. -/
def time? (hour minute : Int) : Option (Nat × Nat) :=
  if 0 ≤ hour ∧ hour < 24 ∧ 0 ≤ minute ∧ minute < 60 then
    some (hour.toNat, minute.toNat)
  else none

/-- NFLBoardConfig._parse_cutoff_time from board.py: split on the colon,
convert both parts with int(), build a time object, and fall back to
06:00 on any ValueError or AttributeError.  The none input stands for a
configuration value without a split method (for example null), whose
attribute access raises AttributeError. -/
def parse_cutoff_time (time_string : Option String) : Nat × Nat :=
  match time_string with
  | none => (6, 0)
  | some s =>
    match pySplit s with
    | [hs, ms] =>
      match pyInt? hs, pyInt? ms with
      | some hour, some minute => (time? hour minute).getD (6, 0)
      | _, _ => (6, 0)
    | _ => (6, 0)

/-- Configuration object built by NFLBoardConfig.__init__ in board.py. -/
structure NFLBoardConfig where
  team_ids : List String
  display_seconds : Int
  refresh_seconds : Int
  show_all_games : Bool
  show_previous_games_until_time : Nat × Nat
deriving DecidableEq

/-- Relevant entries of the configuration dictionary handed to
NFLBoardConfig.__init__ (numeric entries already converted by int()). -/
structure ConfigData where
  team_ids : TeamIdsValue
  display_seconds : Int
  refresh_seconds : Int
  show_all_games : Bool
  show_previous_games_until : Option String

/-- NFLBoardConfig.__init__ from board.py: parse the team identifiers and
raise ValueError (Except.error here) when none survives; otherwise
record the display settings and the parsed cutoff time. -/
def NFLBoardConfig.init (config_data : ConfigData) : Except String NFLBoardConfig :=
  let parsed := parse_team_ids config_data.team_ids
  if parsed.isEmpty then
    Except.error "NFL Board requires at least one team_id in configuration"
  else
    Except.ok
      { team_ids := parsed
        display_seconds := config_data.display_seconds
        refresh_seconds := config_data.refresh_seconds
        show_all_games := config_data.show_all_games
        show_previous_games_until_time := parse_cutoff_time config_data.show_previous_games_until }

/-- Modelled from the spec: the Team variant that board.py imports from
the data module (carrying a team_id field) is not among the sources;
spec section 3 Team, restricted to the fields the board logic reads. -/
structure BoardTeam where
  team_id : String
  display_name : String
  abbreviation : String
deriving DecidableEq

/-- Modelled from the spec: the Game variant that board.py imports from
the data module (with the derived predicates is_final and is_live) is
not among the sources; spec section 3 Game.  Only the calendar day of
the timestamp is kept. -/
structure BoardGame where
  event_id : String
  date : Option Int
  home_team : BoardTeam
  away_team : BoardTeam
  is_final : Bool
  is_live : Bool
  home_score : Option Int
  away_score : Option Int
deriving DecidableEq

/-- Modelled from the spec: the derived Game predicate involves(team_id)
of spec section 3, true when either participant has the identifier. -/
def BoardGame.involves_team (g : BoardGame) (team_id : String) : Bool :=
  g.home_team.team_id == team_id || g.away_team.team_id == team_id

/-- Modelled from the spec: class NFLDataSnapshot is imported by board.py
but absent from the sources.  Spec section 3 Snapshot: the team catalog,
the favorite-team subset, today's and yesterday's games, derived live
and favorite-team game lists, per-favorite-team schedules, and an error
marker.  A fresh NFLDataSnapshot() has every field empty. -/
structure NFLDataSnapshot where
  all_teams : List (String × BoardTeam) := []
  favorite_teams : List (String × BoardTeam) := []
  todays_games : List BoardGame := []
  yesterdays_games : List BoardGame := []
  live_games : List BoardGame := []
  favorite_team_games : List BoardGame := []
  team_schedules : List (String × List BoardGame) := []
  errors : List String := []
deriving DecidableEq

/-- Modelled from the spec: NFLDataSnapshot.add_error records an error
marker on the snapshot. -/
def NFLDataSnapshot.add_error (s : NFLDataSnapshot) (message : String) : NFLDataSnapshot :=
  { s with errors := s.errors ++ [message] }

/-- Modelled from the spec: a snapshot is valid iff it carries no fatal
error and at least the teams map is populated (spec section 3). -/
def NFLDataSnapshot.is_valid (s : NFLDataSnapshot) : Bool :=
  s.errors.isEmpty && !s.all_teams.isEmpty

/-- Outcomes of the two network calls made by
NFLBoard._perform_basic_data_refresh: the team catalog and today's
scoreboard.  Except.error stands for a raised exception. -/
structure BasicFetches where
  teams : Except String (List (String × BoardTeam))
  todays : Except String (List BoardGame)

/-- NFLBoard._perform_basic_data_refresh from board.py, as a function
from the fetch outcomes to the snapshot it stores: an empty or failing
team catalog yields a fresh snapshot carrying only an error marker, a
raise anywhere lands in the except branch with a fresh error snapshot,
and otherwise the snapshot is filled from today's games. -/
def perform_basic_data_refresh (config : NFLBoardConfig) (f : BasicFetches) : NFLDataSnapshot :=
  match f.teams with
  | Except.error e => NFLDataSnapshot.add_error {} ("Basic data refresh failed: " ++ e)
  | Except.ok all_teams =>
    if all_teams.isEmpty then
      NFLDataSnapshot.add_error {} "Failed to fetch teams data"
    else
      match f.todays with
      | Except.error e => NFLDataSnapshot.add_error {} ("Basic data refresh failed: " ++ e)
      | Except.ok todays_games =>
        { all_teams := all_teams
          favorite_teams := all_teams.filter (fun p => config.team_ids.contains p.1)
          todays_games := todays_games
          live_games := todays_games.filter (fun g => g.is_live)
          favorite_team_games :=
            todays_games.filter (fun g => config.team_ids.any (fun tid => g.involves_team tid)) }

/-- Outcomes of the network calls made by
NFLBoard._perform_full_data_refresh, in source order: team catalog,
per-team detail population, today's and yesterday's scoreboards, and
one schedule fetch per favorite team. -/
structure FullFetches where
  teams : Except String (List (String × BoardTeam))
  details : Except String Nat
  todays : Except String (List BoardGame)
  yesterdays : Except String (List BoardGame)
  schedules : String → Except String (List BoardGame)

/-- Schedule-fetch loop of _perform_full_data_refresh: one
get_team_schedule call per favorite team, a raise anywhere aborting the
whole loop. -/
def collectSchedules (team_ids : List String)
    (fetch : String → Except String (List BoardGame)) :
    Except String (List (String × List BoardGame)) :=
  match team_ids with
  | [] => Except.ok []
  | tid :: rest =>
    match fetch tid with
    | Except.error e => Except.error e
    | Except.ok sched =>
      match collectSchedules rest fetch with
      | Except.error e => Except.error e
      | Except.ok others => Except.ok ((tid, sched) :: others)

/-- NFLBoard._perform_full_data_refresh from board.py, as a function from
the fetch outcomes to the snapshot it stores.  An empty team catalog
yields a fresh snapshot with only an error marker; a raise in any fetch
lands in the except branch, which also stores a fresh error snapshot. -/
def perform_full_data_refresh (config : NFLBoardConfig) (f : FullFetches) : NFLDataSnapshot :=
  match f.teams with
  | Except.error e => NFLDataSnapshot.add_error {} ("Full data refresh failed: " ++ e)
  | Except.ok all_teams =>
    if all_teams.isEmpty then
      NFLDataSnapshot.add_error {} "Failed to fetch teams data"
    else
      match f.details with
      | Except.error e => NFLDataSnapshot.add_error {} ("Full data refresh failed: " ++ e)
      | Except.ok _ =>
        match f.todays with
        | Except.error e => NFLDataSnapshot.add_error {} ("Full data refresh failed: " ++ e)
        | Except.ok todays_games =>
          match f.yesterdays with
          | Except.error e => NFLDataSnapshot.add_error {} ("Full data refresh failed: " ++ e)
          | Except.ok yesterdays_games =>
            match collectSchedules config.team_ids f.schedules with
            | Except.error e => NFLDataSnapshot.add_error {} ("Full data refresh failed: " ++ e)
            | Except.ok team_schedules =>
              { all_teams := all_teams
                favorite_teams := all_teams.filter (fun p => config.team_ids.contains p.1)
                todays_games := todays_games
                yesterdays_games := yesterdays_games
                live_games := todays_games.filter (fun g => g.is_live)
                favorite_team_games :=
                  (todays_games ++ yesterdays_games).filter
                    (fun g => config.team_ids.any (fun tid => g.involves_team tid))
                team_schedules := team_schedules }

/-- Assignment of the freshly built snapshot to data.nfl_board_snapshot
at the end of every path of _perform_basic_data_refresh; prev is the
slot content beforehand. -/
def basic_refresh_slot (prev : Option NFLDataSnapshot) (config : NFLBoardConfig)
    (f : BasicFetches) : Option NFLDataSnapshot :=
  some (perform_basic_data_refresh config f)

/-- Assignment of the freshly built snapshot to data.nfl_board_snapshot
at the end of every path of _perform_full_data_refresh; prev is the
slot content beforehand. -/
def full_refresh_slot (prev : Option NFLDataSnapshot) (config : NFLBoardConfig)
    (f : FullFetches) : Option NFLDataSnapshot :=
  some (perform_full_data_refresh config f)

/-- Error-result test for a fetch outcome. -/
def isErr {ε α : Type} : Except ε α → Bool
  | Except.error _ => true
  | Except.ok _ => false

/-- Mandatory team-catalog fetch failure: the fetch raises, or it returns
an empty catalog. -/
def teamCatalogFailed (r : Except String (List (String × BoardTeam))) : Bool :=
  match r with
  | Except.error _ => true
  | Except.ok ts => ts.isEmpty

/-- A full refresh cycle raises partway through: in the catalog fetch,
or past a non-empty catalog in the detail, scoreboard or schedule
fetches. -/
def fullRefreshRaises (config : NFLBoardConfig) (f : FullFetches) : Bool :=
  match f.teams with
  | Except.error _ => true
  | Except.ok ts =>
    !ts.isEmpty &&
      (isErr f.details || isErr f.todays || isErr f.yesterdays ||
        isErr (collectSchedules config.team_ids f.schedules))

/-- Wall-clock instant read by datetime.now(): a local calendar day and a
time of day in seconds since midnight. -/
structure WallClock where
  day : Int
  time_of_day : Nat
deriving DecidableEq

/-- Seconds since midnight of an (hour, minute) cutoff time. -/
def timeToSeconds (t : Nat × Nat) : Nat :=
  t.1 * 3600 + t.2 * 60

/-- NFLBoardConfig.should_show_previous_game from board.py: a non-final
game is always shown; a final game without a date never; a final game
dated today or later always; a final game dated exactly yesterday only
while the wall clock is before the configured cutoff; anything older
never. -/
def NFLBoardConfig.should_show_previous_game (config : NFLBoardConfig) (now : WallClock)
    (game : BoardGame) : Bool :=
  if !game.is_final then true
  else
    match game.date with
    | none => false
    | some game_date =>
      if now.day ≤ game_date then true
      else if game_date == now.day - 1 then
        decide (now.time_of_day < timeToSeconds config.show_previous_games_until_time)
      else false

/-- Modelled from the spec: NFLDataSnapshot.get_games_for_display is
called by board.py but absent from the sources.  Spec section 4.4 step
1: the candidate set is the favorite-team games plus, when
show_all_games is enabled, the other (non-favorite) today and yesterday
games.  The previous-day cutoff filtering of step 2 is applied by the
caller _refresh_display_games, modelled below. -/
def NFLDataSnapshot.get_games_for_display (s : NFLDataSnapshot)
    (favorite_team_ids : List String) (show_all_games : Bool) : List BoardGame :=
  s.favorite_team_games ++
    (if show_all_games then
      (s.todays_games ++ s.yesterdays_games).filter
        (fun g => !(favorite_team_ids.any (fun tid => g.involves_team tid)))
    else [])

/-- Additional previous-game filtering step of
NFLBoard._refresh_display_games. -/
def filtered_games (config : NFLBoardConfig) (now : WallClock) (s : NFLDataSnapshot) :
    List BoardGame :=
  (s.get_games_for_display config.team_ids config.show_all_games).filter
    (fun g => config.should_show_previous_game now g)

/-- Favorite-team side of the partition of the surviving games in
NFLBoard._refresh_display_games. -/
def favorite_display_games (config : NFLBoardConfig) (now : WallClock) (s : NFLDataSnapshot) :
    List BoardGame :=
  (filtered_games config now s).filter
    (fun g => config.team_ids.any (fun tid => g.involves_team tid))

/-- Non-favorite side of the partition of the surviving games in
NFLBoard._refresh_display_games. -/
def other_display_games (config : NFLBoardConfig) (now : WallClock) (s : NFLDataSnapshot) :
    List BoardGame :=
  (filtered_games config now s).filter
    (fun g => !(config.team_ids.any (fun tid => g.involves_team tid)))

/-- Membership test of the teams_with_games_today set built by
NFLBoard._refresh_display_games: some surviving favorite-team game is
dated on today's calendar date and involves the team. -/
def teams_with_games_today (config : NFLBoardConfig) (now : WallClock) (s : NFLDataSnapshot)
    (team_id : String) : Bool :=
  (favorite_display_games config now s).any
    (fun g => g.date == some now.day && g.involves_team team_id)

/-- Dictionary access snapshot.favorite_teams[team_id] combined with the
membership test, as an association-list lookup. -/
def lookupTeam (team_id : String) : List (String × BoardTeam) → Option BoardTeam
  | [] => none
  | (k, t) :: rest => if k == team_id then some t else lookupTeam team_id rest

/-- Summary-team list of NFLBoard._refresh_display_games: every
configured favorite team without a game today that is present in the
snapshot's favorite-teams map, in configuration order. -/
def teams_for_summaries (config : NFLBoardConfig) (now : WallClock) (s : NFLDataSnapshot) :
    List BoardTeam :=
  config.team_ids.filterMap (fun team_id =>
    if teams_with_games_today config now s team_id then none
    else lookupTeam team_id s.favorite_teams)

/-- Display item as consumed by the render loop: a game or a team
summary (spec section 3 DisplayItem). -/
inductive DisplayItem where
  | game (g : BoardGame)
  | team (t : BoardTeam)
deriving DecidableEq

/-- NFLBoard._refresh_display_games from board.py: with no valid
snapshot the display list is emptied; otherwise it is the surviving
favorite-team games, then the surviving other games, then the team
summaries. -/
def refresh_display_games (config : NFLBoardConfig) (now : WallClock)
    (snapshot : Option NFLDataSnapshot) : List DisplayItem :=
  match snapshot with
  | none => []
  | some s =>
    if !s.is_valid then []
    else
      (favorite_display_games config now s).map DisplayItem.game ++
        (other_display_games config now s).map DisplayItem.game ++
        (teams_for_summaries config now s).map DisplayItem.team

/-- Test whether a team participates in some game item of a display
list. -/
def appearsAsGameParticipant (items : List DisplayItem) (team_id : String) : Bool :=
  items.any (fun item =>
    match item with
    | DisplayItem.game g => g.involves_team team_id
    | DisplayItem.team _ => false)

/-- Test whether a team occurs as a team-summary item of a display
list. -/
def appearsAsSummary (items : List DisplayItem) (team_id : String) : Bool :=
  items.any (fun item =>
    match item with
    | DisplayItem.game _ => false
    | DisplayItem.team t => t.team_id == team_id)

/-- Concrete favorite team used in the worked examples. -/
def teamOne : BoardTeam := ⟨"1", "Team One", "ONE"⟩

/-- Concrete non-favorite opponent used in the worked examples. -/
def teamTwo : BoardTeam := ⟨"2", "Team Two", "TWO"⟩

/-- Concrete configuration: favorite team 1, show_all_games disabled,
cutoff 06:00. -/
def cfgEx : NFLBoardConfig := ⟨["1"], 8, 300, false, (6, 0)⟩

/-- Concrete wall clock: 05:00 in the morning of day 100, before the
06:00 cutoff. -/
def nowEx : WallClock := ⟨100, 18000⟩

/-- Concrete final game of day 99 (yesterday) involving the favorite
team. -/
def yesterdayFinalGame : BoardGame :=
  ⟨"401", some 99, teamOne, teamTwo, true, false, some 24, some 17⟩

/-- Concrete fetch outcomes of a fully successful full refresh whose
only recent game is yesterday's final. -/
def fetchesEx : FullFetches :=
  ⟨Except.ok [("1", teamOne), ("2", teamTwo)], Except.ok 2, Except.ok [],
    Except.ok [yesterdayFinalGame], fun _ => Except.ok []⟩

/-- Concrete snapshot produced by the full refresh cycle on those fetch
outcomes. -/
def snapshotEx : NFLDataSnapshot := perform_full_data_refresh cfgEx fetchesEx

/-- Concrete non-final game of day 100 (today) involving the favorite
team. -/
def todayGameEx : BoardGame := ⟨"402", some 100, teamOne, teamTwo, false, false, none, none⟩

/-- Concrete snapshot whose only favorite-team game is dated today. -/
def snapshotTodayEx : NFLDataSnapshot :=
  { all_teams := [("1", teamOne)]
    favorite_teams := [("1", teamOne)]
    todays_games := [todayGameEx]
    favorite_team_games := [todayGameEx] }

/-- Concrete favorite team of the witness examples. -/
def wTeam : BoardTeam := ⟨"7", "Sevens", "SVN"⟩

/-- Concrete opponent of the witness examples. -/
def wOpp : BoardTeam := ⟨"9", "Nines", "NIN"⟩

/-- Concrete configuration of the witness examples. -/
def wCfg : NFLBoardConfig := ⟨["7"], 8, 300, true, (6, 0)⟩

/-- Concrete wall clock of the witness examples: midnight of day 200. -/
def wNow : WallClock := ⟨200, 0⟩

/-- Concrete live favorite-team game dated today (day 200). -/
def wTodayGame : BoardGame := ⟨"500", some 200, wTeam, wOpp, false, true, some 3, some 0⟩

/-- Concrete valid snapshot with one live favorite-team game today. -/
def wSnap : NFLDataSnapshot :=
  { all_teams := [("7", wTeam), ("9", wOpp)]
    favorite_teams := [("7", wTeam)]
    todays_games := [wTodayGame]
    live_games := [wTodayGame]
    favorite_team_games := [wTodayGame] }

/-- Concrete final game of day 49 used for the cutoff boundary
witness. -/
def wYesterdayGame : BoardGame := ⟨"600", some 49, wTeam, wOpp, true, false, some 10, some 7⟩

/-- Concrete data.py teams for the result-token witness. -/
def dTeamA : NFLTeam := ⟨"12", "Aces", "ACE"⟩

/-- Concrete data.py opponent for the result-token witness. -/
def dTeamB : NFLTeam := ⟨"34", "Bears", "BRS"⟩

/-- Concrete completed data.py game: home 27, away 20. -/
def dGame : NFLGame := ⟨"700", some 10, dTeamA, dTeamB, "post", "Final", true, false, some 27, some 20⟩

/-- Concrete basic-refresh fetch outcomes whose team-catalog fetch
raises. -/
def wBadBasic : BasicFetches := ⟨Except.error "connection reset", Except.ok []⟩

/-- Concrete full-refresh fetch outcomes whose team-catalog fetch
returns no teams. -/
def wBadFull : FullFetches :=
  ⟨Except.ok [], Except.ok 0, Except.ok [], Except.ok [], fun _ => Except.ok []⟩

/-- Concrete full-refresh fetch outcomes that raise partway through: the
catalog succeeds and the detail population raises. -/
def wBadFullLate : FullFetches :=
  ⟨Except.ok [("7", wTeam)], Except.error "timeout", Except.ok [], Except.ok [],
    fun _ => Except.ok []⟩

/-- C4: for every completed game in which the given team participates
with both scores present, result_token returns W when that team's score
exceeds its opponent's, L when it is less, and T when equal; for every
non-final game it returns none. -/
theorem c4_result_token_round_trip :
    (∀ (g : NFLGame) (team_id : String) (our opp : Int),
      g.is_completed = true →
      (g.home_team.id = team_id ∨ g.away_team.id = team_id) →
      g.get_team_score team_id = some our →
      g.get_opponent_score team_id = some opp →
      g.result_token team_id =
        (if opp < our then some "W" else if our < opp then some "L" else some "T"))
    ∧ (∀ (g : NFLGame) (team_id : String),
      g.is_completed = false → g.result_token team_id = none) := by
  constructor
  · intro g team_id our opp hc hpart hts hos
    by_cases hh : g.home_team.id = team_id
    · simp only [NFLGame.get_team_score, hh, beq_self_eq_true, if_true] at hts
      simp only [NFLGame.get_opponent_score, hh, beq_self_eq_true, if_true] at hos
      simp only [NFLGame.result_token, hc, hts, hos, hh, beq_self_eq_true, if_true]
      simp only [resultFromScores, gt_iff_lt]
    · have ha : g.away_team.id = team_id := hpart.resolve_left hh
      have hhf : (g.home_team.id == team_id) = false := beq_eq_false_iff_ne.mpr hh
      simp only [NFLGame.get_team_score, hhf, Bool.false_eq_true, if_false, ha,
        beq_self_eq_true, if_true] at hts
      simp only [NFLGame.get_opponent_score, hhf, Bool.false_eq_true, if_false, ha,
        beq_self_eq_true, if_true] at hos
      simp only [NFLGame.result_token, hc, hts, hos, hhf, Bool.false_eq_true, if_false,
        ha, beq_self_eq_true, if_true]
      simp only [resultFromScores, gt_iff_lt]
  · intro g team_id h
    simp only [NFLGame.result_token, h]

/-- C4 witness: the concrete completed game dGame, home side 27 to 20,
is a W for the home team. -/
theorem c4_witness : dGame.result_token "12" = some "W" := by
  have h := c4_result_token_round_trip.1 dGame "12" 27 20 (by decide) (Or.inl (by decide))
    (by decide) (by decide)
  simpa using h

/-- C5: a non-final game passes the previous-day visibility rule
whatever its date (even a missing one) and whatever the wall-clock
time. -/
theorem c5_nonfinal_always_visible :
    ∀ (config : NFLBoardConfig) (now : WallClock) (game : BoardGame),
      game.is_final = false → config.should_show_previous_game now game = true := by
  intro config now game h
  simp only [NFLBoardConfig.should_show_previous_game, h, Bool.not_false, if_true]

/-- C5 witness: the concrete non-final game wTodayGame is visible at the
concrete clock wNow. -/
theorem c5_witness : wCfg.should_show_previous_game wNow wTodayGame = true :=
  c5_nonfinal_always_visible wCfg wNow wTodayGame (by decide)

/-- C2: a final game dated exactly yesterday is visible precisely while
the wall-clock time is before the configured cutoff; in particular it is
visible at cutoff minus one minute, and not visible at the cutoff itself
nor at cutoff plus one minute. -/
theorem c2_yesterday_cutoff_boundary :
    ∀ (config : NFLBoardConfig) (day : Int) (t : Nat) (game : BoardGame) (d : Int),
      game.is_final = true →
      game.date = some d →
      d = day - 1 →
      ((config.should_show_previous_game ⟨day, t⟩ game = true ↔
          t < timeToSeconds config.show_previous_games_until_time)
        ∧ (60 ≤ timeToSeconds config.show_previous_games_until_time →
            config.should_show_previous_game
              ⟨day, timeToSeconds config.show_previous_games_until_time - 60⟩ game = true)
        ∧ config.should_show_previous_game
            ⟨day, timeToSeconds config.show_previous_games_until_time + 60⟩ game = false
        ∧ config.should_show_previous_game
            ⟨day, timeToSeconds config.show_previous_games_until_time⟩ game = false) := by
  intro config day t game d hf hd hde
  have hnotle : ¬ (day ≤ d) := by omega
  have hbeq : (d == day - 1) = true := beq_iff_eq.mpr hde
  simp only [NFLBoardConfig.should_show_previous_game, hf, Bool.not_true,
    Bool.false_eq_true, if_false, hd, hnotle, hbeq, if_true]
  refine ⟨decide_eq_true_iff, ?_, ?_, ?_⟩
  · intro h60
    rw [decide_eq_true_iff]
    omega
  · rw [decide_eq_false_iff_not]
    omega
  · rw [decide_eq_false_iff_not]
    omega

/-- C2 witness: with the concrete 06:00 cutoff (21600 seconds) and the
concrete final game of day 49 viewed on day 50, visibility holds exactly
before the cutoff, at 05:59 but not at 06:00 or 06:01. -/
theorem c2_witness :
    ((wCfg.should_show_previous_game ⟨50, 18000⟩ wYesterdayGame = true ↔
        18000 < timeToSeconds wCfg.show_previous_games_until_time)
      ∧ (60 ≤ timeToSeconds wCfg.show_previous_games_until_time →
          wCfg.should_show_previous_game
            ⟨50, timeToSeconds wCfg.show_previous_games_until_time - 60⟩ wYesterdayGame = true)
      ∧ wCfg.should_show_previous_game
          ⟨50, timeToSeconds wCfg.show_previous_games_until_time + 60⟩ wYesterdayGame = false
      ∧ wCfg.should_show_previous_game
          ⟨50, timeToSeconds wCfg.show_previous_games_until_time⟩ wYesterdayGame = false) :=
  c2_yesterday_cutoff_boundary wCfg 50 18000 wYesterdayGame 49 (by decide) (by decide)
    (by decide)

/-- Stripping and filtering yields nothing exactly when every entry is
blank. -/
theorem stripAndFilter_eq_nil_iff (xs : List String) :
    stripAndFilter xs = [] ↔ ∀ x ∈ xs, pyStrip x = "" := by
  simp [stripAndFilter, List.filter_eq_nil_iff]

/-- Construction succeeds exactly when some parsed identifier
survives. -/
theorem init_ok_iff (cd : ConfigData) :
    (∃ cfg, NFLBoardConfig.init cd = Except.ok cfg) ↔ parse_team_ids cd.team_ids ≠ [] := by
  unfold NFLBoardConfig.init
  cases hp : (parse_team_ids cd.team_ids).isEmpty with
  | true =>
    simp only [hp, if_true]
    constructor
    · rintro ⟨cfg, hc⟩
      cases hc
    · intro hne
      exact absurd (List.isEmpty_iff.mp hp) hne
  | false =>
    simp only [hp, Bool.false_eq_true, if_false]
    constructor
    · intro _ hnil
      rw [hnil] at hp
      cases hp
    · intro _
      exact ⟨_, rfl⟩

/-- A successfully constructed configuration records exactly the parsed
identifiers. -/
theorem init_team_ids (cd : ConfigData) (cfg : NFLBoardConfig) :
    NFLBoardConfig.init cd = Except.ok cfg → cfg.team_ids = parse_team_ids cd.team_ids := by
  unfold NFLBoardConfig.init
  cases hp : (parse_team_ids cd.team_ids).isEmpty with
  | true =>
    simp only [hp, if_true]
    intro h
    cases h
  | false =>
    simp only [hp, Bool.false_eq_true, if_false]
    intro h
    cases h
    rfl

/-- C8: building the configuration from a team-identifier list fails
exactly when no entry is non-blank (so a missing key, an empty list or
an all-blank list raises), a wrong-typed value always fails, a single
string succeeds exactly when non-blank, and on success the stored
identifiers are the trimmed non-blank entries. -/
theorem c8_config_requires_team_id :
    (∀ (xs : List String) (ds rs : Int) (sa : Bool) (cv : Option String),
      ((∃ cfg, NFLBoardConfig.init ⟨TeamIdsValue.list xs, ds, rs, sa, cv⟩ = Except.ok cfg) ↔
        ∃ x ∈ xs, pyStrip x ≠ "")
      ∧ ∀ cfg, NFLBoardConfig.init ⟨TeamIdsValue.list xs, ds, rs, sa, cv⟩ = Except.ok cfg →
          cfg.team_ids = (xs.map pyStrip).filter (fun t => decide (t ≠ "")))
    ∧ (∀ (ds rs : Int) (sa : Bool) (cv : Option String),
        NFLBoardConfig.init ⟨TeamIdsValue.other, ds, rs, sa, cv⟩ =
          Except.error "NFL Board requires at least one team_id in configuration")
    ∧ (∀ (s : String) (ds rs : Int) (sa : Bool) (cv : Option String),
        (∃ cfg, NFLBoardConfig.init ⟨TeamIdsValue.str s, ds, rs, sa, cv⟩ = Except.ok cfg) ↔
          pyStrip s ≠ "") := by
  refine ⟨?_, ?_, ?_⟩
  · intro xs ds rs sa cv
    constructor
    · rw [init_ok_iff]
      show stripAndFilter xs ≠ [] ↔ _
      rw [ne_eq, stripAndFilter_eq_nil_iff]
      push_neg
      rfl
    · intro cfg h
      exact init_team_ids _ _ h
  · intro ds rs sa cv
    rfl
  · intro s ds rs sa cv
    rw [init_ok_iff]
    show stripAndFilter [s] ≠ [] ↔ _
    rw [ne_eq, stripAndFilter_eq_nil_iff]
    simp

/-- C8 witness: a list with one padded identifier and one blank entry is
accepted and normalized to the trimmed identifier. -/
theorem c8_witness :
    ∃ cfg, NFLBoardConfig.init
        ⟨TeamIdsValue.list ["  ne ", ""], 8, 300, false, some "06:00"⟩ = Except.ok cfg :=
  ((c8_config_requires_team_id.1 ["  ne ", ""] 8 300 false (some "06:00")).1).mpr
    ⟨"  ne ", by decide, by decide⟩

/-- C9: the cutoff parser falls back to 06:00 for a value without a
split method, for a wrong number of colon-separated fields, for a
non-numeric part, and for an out-of-range hour or minute; a string that
splits into two integer parts within range yields exactly that time. -/
theorem c9_cutoff_parse_fallback :
    parse_cutoff_time none = (6, 0)
    ∧ (∀ s : String, (pySplit s).length ≠ 2 → parse_cutoff_time (some s) = (6, 0))
    ∧ (∀ (s hs ms : String), pySplit s = [hs, ms] →
        (pyInt? hs = none ∨ pyInt? ms = none) → parse_cutoff_time (some s) = (6, 0))
    ∧ (∀ (s hs ms : String) (h m : Int), pySplit s = [hs, ms] →
        pyInt? hs = some h → pyInt? ms = some m →
        ¬(0 ≤ h ∧ h < 24 ∧ 0 ≤ m ∧ m < 60) → parse_cutoff_time (some s) = (6, 0))
    ∧ (∀ (s hs ms : String) (h m : Int), pySplit s = [hs, ms] →
        pyInt? hs = some h → pyInt? ms = some m →
        0 ≤ h → h < 24 → 0 ≤ m → m < 60 →
        parse_cutoff_time (some s) = (h.toNat, m.toNat)) := by
  refine ⟨rfl, ?_, ?_, ?_, ?_⟩
  · intro s hlen
    rcases hsp : pySplit s with _ | ⟨a, _ | ⟨b, _ | ⟨c, rest⟩⟩⟩
    · simp [parse_cutoff_time, hsp]
    · simp [parse_cutoff_time, hsp]
    · exact absurd (by rw [hsp]; rfl) hlen
    · simp [parse_cutoff_time, hsp]
  · intro s hs ms hsp hor
    rcases hor with h1 | h1
    · cases h2 : pyInt? ms <;> simp [parse_cutoff_time, hsp, h1, h2]
    · cases h2 : pyInt? hs <;> simp [parse_cutoff_time, hsp, h1, h2]
  · intro s hs ms h m hsp hh hm hrange
    simp [parse_cutoff_time, hsp, hh, hm, time?, hrange]
  · intro s hs ms h m hsp hh hm h0 h24 m0 m60
    simp [parse_cutoff_time, hsp, hh, hm, time?, h0, h24, m0, m60]

/-- C9 witness: the string 07:30 parses to seven thirty. -/
theorem c9_witness : parse_cutoff_time (some "07:30") = (7, 30) := by
  have h := c9_cutoff_parse_fallback.2.2.2.2 "07:30" "07" "30" 7 30 (by decide) (by decide)
    (by decide) (by decide) (by decide) (by decide) (by decide)
  simpa using h

/-- A fresh snapshot with one recorded error has every data field empty
and exactly that error marker; in particular it is not valid. -/
theorem add_error_empty (m : String) :
    (NFLDataSnapshot.add_error {} m).all_teams = []
    ∧ (NFLDataSnapshot.add_error {} m).favorite_teams = []
    ∧ (NFLDataSnapshot.add_error {} m).todays_games = []
    ∧ (NFLDataSnapshot.add_error {} m).yesterdays_games = []
    ∧ (NFLDataSnapshot.add_error {} m).live_games = []
    ∧ (NFLDataSnapshot.add_error {} m).favorite_team_games = []
    ∧ (NFLDataSnapshot.add_error {} m).team_schedules = []
    ∧ (NFLDataSnapshot.add_error {} m).errors = [m]
    ∧ (NFLDataSnapshot.add_error {} m).is_valid = false := by
  refine ⟨rfl, rfl, rfl, rfl, rfl, rfl, rfl, rfl, rfl⟩

/-- When the team-catalog fetch fails, the basic refresh stores a fresh
snapshot carrying only an error marker. -/
theorem basic_catalog_failure (config : NFLBoardConfig) (f : BasicFetches)
    (hfail : teamCatalogFailed f.teams = true) :
    ∃ m, perform_basic_data_refresh config f = NFLDataSnapshot.add_error {} m := by
  unfold teamCatalogFailed at hfail
  unfold perform_basic_data_refresh
  cases hte : f.teams with
  | error e => exact ⟨"Basic data refresh failed: " ++ e, rfl⟩
  | ok ts =>
    rw [hte] at hfail
    simp only [] at hfail
    simp only [hfail, if_pos]
    exact ⟨"Failed to fetch teams data", rfl⟩

/-- When the team-catalog fetch fails, the full refresh stores a fresh
snapshot carrying only an error marker. -/
theorem full_catalog_failure (config : NFLBoardConfig) (f : FullFetches)
    (hfail : teamCatalogFailed f.teams = true) :
    ∃ m, perform_full_data_refresh config f = NFLDataSnapshot.add_error {} m := by
  unfold teamCatalogFailed at hfail
  unfold perform_full_data_refresh
  cases hte : f.teams with
  | error e => exact ⟨"Full data refresh failed: " ++ e, rfl⟩
  | ok ts =>
    rw [hte] at hfail
    simp only [] at hfail
    simp only [hfail, if_pos]
    exact ⟨"Failed to fetch teams data", rfl⟩

/-- C7: when the mandatory team-catalog fetch raises or returns no
teams, both the basic and the full refresh cycle store a snapshot that
carries an error marker and contains no teams and no games. -/
theorem c7_catalog_failure_error_snapshot :
    ∀ (config : NFLBoardConfig) (fb : BasicFetches) (ff : FullFetches)
      (prev : Option NFLDataSnapshot),
      teamCatalogFailed fb.teams = true →
      teamCatalogFailed ff.teams = true →
      (basic_refresh_slot prev config fb = some (perform_basic_data_refresh config fb)
        ∧ (perform_basic_data_refresh config fb).errors ≠ []
        ∧ (perform_basic_data_refresh config fb).all_teams = []
        ∧ (perform_basic_data_refresh config fb).favorite_teams = []
        ∧ (perform_basic_data_refresh config fb).todays_games = []
        ∧ (perform_basic_data_refresh config fb).yesterdays_games = []
        ∧ (perform_basic_data_refresh config fb).live_games = []
        ∧ (perform_basic_data_refresh config fb).favorite_team_games = [])
      ∧ (full_refresh_slot prev config ff = some (perform_full_data_refresh config ff)
        ∧ (perform_full_data_refresh config ff).errors ≠ []
        ∧ (perform_full_data_refresh config ff).all_teams = []
        ∧ (perform_full_data_refresh config ff).favorite_teams = []
        ∧ (perform_full_data_refresh config ff).todays_games = []
        ∧ (perform_full_data_refresh config ff).yesterdays_games = []
        ∧ (perform_full_data_refresh config ff).live_games = []
        ∧ (perform_full_data_refresh config ff).favorite_team_games = []) := by
  intro config fb ff prev hb hf
  obtain ⟨mb, hmb⟩ := basic_catalog_failure config fb hb
  obtain ⟨mf, hmf⟩ := full_catalog_failure config ff hf
  rw [hmb, hmf]
  refine ⟨⟨?_, by simp [NFLDataSnapshot.add_error], rfl, rfl, rfl, rfl, rfl, rfl⟩,
    ⟨?_, by simp [NFLDataSnapshot.add_error], rfl, rfl, rfl, rfl, rfl, rfl⟩⟩
  · unfold basic_refresh_slot
    rw [hmb]
  · unfold full_refresh_slot
    rw [hmf]

/-- C7 witness: a raising basic catalog fetch and an empty full catalog
both yield stored error snapshots with no teams and no games. -/
theorem c7_witness :
    (basic_refresh_slot none wCfg wBadBasic = some (perform_basic_data_refresh wCfg wBadBasic)
      ∧ (perform_basic_data_refresh wCfg wBadBasic).errors ≠ []
      ∧ (perform_basic_data_refresh wCfg wBadBasic).all_teams = []
      ∧ (perform_basic_data_refresh wCfg wBadBasic).favorite_teams = []
      ∧ (perform_basic_data_refresh wCfg wBadBasic).todays_games = []
      ∧ (perform_basic_data_refresh wCfg wBadBasic).yesterdays_games = []
      ∧ (perform_basic_data_refresh wCfg wBadBasic).live_games = []
      ∧ (perform_basic_data_refresh wCfg wBadBasic).favorite_team_games = [])
    ∧ (full_refresh_slot none wCfg wBadFull = some (perform_full_data_refresh wCfg wBadFull)
      ∧ (perform_full_data_refresh wCfg wBadFull).errors ≠ []
      ∧ (perform_full_data_refresh wCfg wBadFull).all_teams = []
      ∧ (perform_full_data_refresh wCfg wBadFull).favorite_teams = []
      ∧ (perform_full_data_refresh wCfg wBadFull).todays_games = []
      ∧ (perform_full_data_refresh wCfg wBadFull).yesterdays_games = []
      ∧ (perform_full_data_refresh wCfg wBadFull).live_games = []
      ∧ (perform_full_data_refresh wCfg wBadFull).favorite_team_games = []) :=
  c7_catalog_failure_error_snapshot wCfg wBadBasic wBadFull none (by decide) (by decide)

/-- When a full refresh cycle raises partway through, the snapshot it
builds is a fresh error snapshot. -/
theorem full_raise_error_snapshot (config : NFLBoardConfig) (f : FullFetches)
    (hr : fullRefreshRaises config f = true) :
    ∃ e, perform_full_data_refresh config f =
      NFLDataSnapshot.add_error {} ("Full data refresh failed: " ++ e) := by
  unfold fullRefreshRaises at hr
  unfold perform_full_data_refresh
  cases hte : f.teams with
  | error e => exact ⟨e, rfl⟩
  | ok ts =>
    rw [hte] at hr
    simp only [] at hr
    rw [Bool.and_eq_true] at hr
    obtain ⟨hne, hdisj⟩ := hr
    have hts : ts.isEmpty = false := by
      cases h : ts.isEmpty
      · rfl
      · rw [h] at hne
        cases hne
    simp only [hts, Bool.false_eq_true, if_false]
    cases hd : f.details with
    | error e => exact ⟨e, rfl⟩
    | ok _ =>
      cases hto : f.todays with
      | error e => exact ⟨e, rfl⟩
      | ok _ =>
        cases hy : f.yesterdays with
        | error e => exact ⟨e, rfl⟩
        | ok _ =>
          cases hs : collectSchedules config.team_ids f.schedules with
          | error e => exact ⟨e, rfl⟩
          | ok _ =>
            rw [hd, hto, hy, hs] at hdisj
            simp [isErr] at hdisj

/-- C10: a full refresh cycle that raises partway through overwrites the
shared snapshot slot with a freshly created error snapshot; a previously
stored valid snapshot is not retained. -/
theorem c10_failed_refresh_overwrites :
    ∀ (config : NFLBoardConfig) (f : FullFetches) (prev : NFLDataSnapshot),
      fullRefreshRaises config f = true →
      prev.is_valid = true →
      full_refresh_slot (some prev) config f ≠ some prev
      ∧ ∃ s, full_refresh_slot (some prev) config f = some s
          ∧ s.is_valid = false ∧ s.all_teams = [] ∧ s.errors ≠ [] := by
  intro config f prev hr hv
  obtain ⟨e, he⟩ := full_raise_error_snapshot config f hr
  have hprev_err : prev.errors = [] := by
    unfold NFLDataSnapshot.is_valid at hv
    rw [Bool.and_eq_true] at hv
    exact List.isEmpty_iff.mp hv.1
  constructor
  · intro hcontra
    unfold full_refresh_slot at hcontra
    have hpe : perform_full_data_refresh config f = prev := Option.some.injEq _ _ ▸ hcontra
    rw [he] at hpe
    have : prev.errors = ["Full data refresh failed: " ++ e] := by
      rw [← hpe]
      rfl
    rw [hprev_err] at this
    cases this
  · refine ⟨perform_full_data_refresh config f, rfl, ?_, ?_, ?_⟩
    · rw [he]
      rfl
    · rw [he]
      rfl
    · rw [he]
      simp [NFLDataSnapshot.add_error]

/-- C10 witness: with a valid stored snapshot and a full refresh whose
detail population raises, the slot is overwritten by an invalid error
snapshot. -/
theorem c10_witness :
    full_refresh_slot (some wSnap) wCfg wBadFullLate ≠ some wSnap
    ∧ ∃ s, full_refresh_slot (some wSnap) wCfg wBadFullLate = some s
        ∧ s.is_valid = false ∧ s.all_teams = [] ∧ s.errors ≠ [] :=
  c10_failed_refresh_overwrites wCfg wBadFullLate wSnap (by decide) (by decide)

/-- A game dated on today's calendar date always passes the previous-day
visibility rule. -/
theorem should_show_of_today (config : NFLBoardConfig) (now : WallClock) (g : BoardGame)
    (hd : g.date = some now.day) :
    config.should_show_previous_game now g = true := by
  unfold NFLBoardConfig.should_show_previous_game
  cases hf : g.is_final with
  | false => simp
  | true => simp [hd]

/-- Building membership in the favorite side of the partition from
membership among the candidates, survival of the visibility filter, and
involvement of some favorite team. -/
theorem mem_favorite_display (config : NFLBoardConfig) (now : WallClock)
    (s : NFLDataSnapshot) (g : BoardGame)
    (hmem : g ∈ s.get_games_for_display config.team_ids config.show_all_games)
    (hshow : config.should_show_previous_game now g = true)
    (hany : config.team_ids.any (fun tid => g.involves_team tid) = true) :
    g ∈ favorite_display_games config now s := by
  unfold favorite_display_games filtered_games
  exact List.mem_filter.mpr ⟨List.mem_filter.mpr ⟨hmem, hshow⟩, hany⟩

/-- A favorite-team game of the snapshot is always among the selection
candidates. -/
theorem mem_candidates_of_fav (config : NFLBoardConfig) (s : NFLDataSnapshot) (g : BoardGame)
    (h : g ∈ s.favorite_team_games) :
    g ∈ s.get_games_for_display config.team_ids config.show_all_games := by
  unfold NFLDataSnapshot.get_games_for_display
  exact List.mem_append_left _ h

/-- A surviving favorite game dated today that involves a team witnesses
that team's membership in the teams-with-games-today set. -/
theorem twgt_of_mem_favorite_display (config : NFLBoardConfig) (now : WallClock)
    (s : NFLDataSnapshot) (team_id : String) (g : BoardGame)
    (hg : g ∈ favorite_display_games config now s)
    (hd : g.date = some now.day)
    (hinv : g.involves_team team_id = true) :
    teams_with_games_today config now s team_id = true := by
  unfold teams_with_games_today
  refine List.any_eq_true.mpr ⟨g, hg, ?_⟩
  rw [hd, hinv]
  simp

/-- An association-list lookup in a well-keyed favorite-teams map
returns a team bearing the looked-up identifier. -/
theorem lookupTeam_team_id (team_id : String) (l : List (String × BoardTeam)) (t : BoardTeam)
    (h : lookupTeam team_id l = some t)
    (hkeys : ∀ p ∈ l, (Prod.snd p).team_id = p.1) :
    t.team_id = team_id := by
  induction l with
  | nil => cases h
  | cons hd tl ih =>
    obtain ⟨k, t'⟩ := hd
    rw [lookupTeam] at h
    by_cases hk : (k == team_id) = true
    · rw [if_pos hk] at h
      injection h with heq
      have hkey := hkeys (k, t') (List.mem_cons_self _ _)
      simp only [] at hkey
      rw [← heq, hkey]
      exact beq_iff_eq.mp hk
    · rw [if_neg hk] at h
      exact ih h (fun p hp => hkeys p (List.mem_cons_of_mem _ hp))

/-- No summary item of a well-keyed pass carries the identifier of a
team that has a game today. -/
theorem summaries_not_team (config : NFLBoardConfig) (now : WallClock)
    (s : NFLDataSnapshot) (team_id : String)
    (hkeys : ∀ p ∈ s.favorite_teams, (Prod.snd p).team_id = p.1)
    (ht : teams_with_games_today config now s team_id = true) :
    ∀ t ∈ teams_for_summaries config now s, (t.team_id == team_id) = false := by
  intro t htmem
  unfold teams_for_summaries at htmem
  obtain ⟨tid, _htid, hf⟩ := List.mem_filterMap.mp htmem
  split at hf
  · cases hf
  · rename_i htw
    have hteq := lookupTeam_team_id tid s.favorite_teams t hf hkeys
    have hne : tid ≠ team_id := by
      intro hcontra
      rw [hcontra] at htw
      exact htw ht
    rw [hteq]
    exact beq_eq_false_iff_ne.mpr hne

/-- The selection pass over an invalid snapshot empties the display
list. -/
theorem refresh_eq_of_invalid (config : NFLBoardConfig) (now : WallClock)
    (s : NFLDataSnapshot) (hv : s.is_valid = false) :
    refresh_display_games config now (some s) = [] := by
  unfold refresh_display_games
  simp [hv]

/-- The selection pass over a valid snapshot is the favorite games, then
the other games, then the summaries. -/
theorem refresh_eq_of_valid (config : NFLBoardConfig) (now : WallClock)
    (s : NFLDataSnapshot) (hv : s.is_valid = true) :
    refresh_display_games config now (some s) =
      (favorite_display_games config now s).map DisplayItem.game ++
        (other_display_games config now s).map DisplayItem.game ++
        (teams_for_summaries config now s).map DisplayItem.team := by
  unfold refresh_display_games
  simp [hv]

/-- A team with a game today never appears as a summary item of the
selection pass over a well-keyed snapshot. -/
theorem summary_excluded (config : NFLBoardConfig) (now : WallClock)
    (s : NFLDataSnapshot) (team_id : String)
    (hkeys : ∀ p ∈ s.favorite_teams, (Prod.snd p).team_id = p.1)
    (ht : teams_with_games_today config now s team_id = true) :
    appearsAsSummary (refresh_display_games config now (some s)) team_id = false := by
  cases hv : s.is_valid with
  | false =>
    rw [refresh_eq_of_invalid config now s hv]
    rfl
  | true =>
    rw [refresh_eq_of_valid config now s hv]
    unfold appearsAsSummary
    rw [List.any_append, List.any_append]
    simp only [Bool.or_eq_false_iff]
    refine ⟨⟨?_, ?_⟩, ?_⟩
    · rw [List.any_eq_false]
      intro it hit
      obtain ⟨g, _, rfl⟩ := List.mem_map.mp hit
      intro hcontra
      exact Bool.false_ne_true hcontra
    · rw [List.any_eq_false]
      intro it hit
      obtain ⟨g, _, rfl⟩ := List.mem_map.mp hit
      intro hcontra
      exact Bool.false_ne_true hcontra
    · rw [List.any_eq_false]
      intro it hit
      obtain ⟨t, htm, rfl⟩ := List.mem_map.mp hit
      intro hcontra
      have h2 := summaries_not_team config now s team_id hkeys ht t htm
      have hcontra2 : (t.team_id == team_id) = true := hcontra
      rw [h2] at hcontra2
      cases hcontra2

/-- C6: a favorite team with a favorite-team game dated today, whatever
that game's state, receives no team-summary item from the selection
pass (over a well-keyed snapshot). -/
theorem c6_today_game_excludes_summary :
    ∀ (config : NFLBoardConfig) (now : WallClock) (s : NFLDataSnapshot)
      (team_id : String) (g : BoardGame),
      (∀ p ∈ s.favorite_teams, (Prod.snd p).team_id = p.1) →
      team_id ∈ config.team_ids →
      g ∈ s.favorite_team_games →
      g.involves_team team_id = true →
      g.date = some now.day →
      appearsAsSummary (refresh_display_games config now (some s)) team_id = false := by
  intro config now s team_id g hkeys htid hmem hinv hdate
  apply summary_excluded config now s team_id hkeys
  apply twgt_of_mem_favorite_display config now s team_id g _ hdate hinv
  apply mem_favorite_display
  · exact mem_candidates_of_fav config s g hmem
  · exact should_show_of_today config now g hdate
  · exact List.any_eq_true.mpr ⟨team_id, htid, hinv⟩

/-- C6 witness: the favorite team with the scheduled live game today
gets no summary item in the concrete pass. -/
theorem c6_witness :
    appearsAsSummary (refresh_display_games wCfg wNow (some wSnap)) "7" = false :=
  c6_today_game_excludes_summary wCfg wNow wSnap "7" wTodayGame (by decide) (by decide)
    (by decide) (by decide) (by decide)

/-- C1 counterexample: on the snapshot produced by a successful full
refresh whose only recent game is yesterday's final involving favorite
team 1, the selection pass at 05:00 (before the 06:00 cutoff) shows team
1 both as a participant of a game item and as a team-summary item. -/
theorem c1_counterexample_team_in_games_and_summaries :
    appearsAsGameParticipant (refresh_display_games cfgEx nowEx (some snapshotEx)) "1" = true
    ∧ appearsAsSummary (refresh_display_games cfgEx nowEx (some snapshotEx)) "1" = true := by
  constructor
  · rfl
  · rfl

/-- C1 amended: a favorite team never appears both as a participant of a
game item dated on today's calendar date and as a team-summary item in
the same pass (over a well-keyed snapshot); the overlap can arise only
through game items not dated today, such as yesterday's finals before
the cutoff. -/
theorem c1_amended_no_today_game_and_summary :
    ∀ (config : NFLBoardConfig) (now : WallClock) (s : NFLDataSnapshot)
      (team_id : String) (g : BoardGame),
      (∀ p ∈ s.favorite_teams, (Prod.snd p).team_id = p.1) →
      team_id ∈ config.team_ids →
      DisplayItem.game g ∈ refresh_display_games config now (some s) →
      g.involves_team team_id = true →
      g.date = some now.day →
      appearsAsSummary (refresh_display_games config now (some s)) team_id = false := by
  intro config now s team_id g hkeys htid hitem hinv hdate
  cases hv : s.is_valid with
  | false =>
    rw [refresh_eq_of_invalid config now s hv]
    rfl
  | true =>
    apply summary_excluded config now s team_id hkeys
    rw [refresh_eq_of_valid config now s hv] at hitem
    rw [List.mem_append, List.mem_append] at hitem
    have hfavmem : g ∈ favorite_display_games config now s := by
      rcases hitem with (hA | hB) | hC
      · obtain ⟨g', hg', heq⟩ := List.mem_map.mp hA
        injection heq with heq2
        exact heq2 ▸ hg'
      · exfalso
        obtain ⟨g', hg', heq⟩ := List.mem_map.mp hB
        injection heq with heq2
        unfold other_display_games at hg'
        have hnot := (List.mem_filter.mp hg').2
        have hany : config.team_ids.any (fun tid => g'.involves_team tid) = true := by
          refine List.any_eq_true.mpr ⟨team_id, htid, ?_⟩
          rw [heq2]
          exact hinv
        rw [hany] at hnot
        exact Bool.false_ne_true hnot
      · exfalso
        obtain ⟨t, _, heq⟩ := List.mem_map.mp hC
        cases heq
    exact twgt_of_mem_favorite_display config now s team_id g hfavmem hdate hinv

/-- C1 amended witness: the favorite team whose game item is dated today
gets no summary item in the concrete pass. -/
theorem c1_amended_witness :
    appearsAsSummary (refresh_display_games cfgEx nowEx (some snapshotTodayEx)) "1" = false :=
  c1_amended_no_today_game_and_summary cfgEx nowEx snapshotTodayEx "1" todayGameEx
    (by decide) (by decide) (by decide) (by decide) (by decide)

/-- C3: for every configuration, wall clock and snapshot, the selection
output splits as favorite-team game items, then non-favorite game
items, then team-summary items; and with show_all_games disabled and a
snapshot whose favorite_team_games all involve a favorite, the middle
block is empty. -/
theorem c3_select_ordering :
    ∀ (config : NFLBoardConfig) (now : WallClock) (snapshot : Option NFLDataSnapshot),
      ∃ A B C, refresh_display_games config now snapshot = A ++ B ++ C
        ∧ (∀ item ∈ A, ∃ g, item = DisplayItem.game g
            ∧ config.team_ids.any (fun tid => g.involves_team tid) = true)
        ∧ (∀ item ∈ B, ∃ g, item = DisplayItem.game g
            ∧ config.team_ids.any (fun tid => g.involves_team tid) = false)
        ∧ (∀ item ∈ C, ∃ t, item = DisplayItem.team t)
        ∧ (config.show_all_games = false →
            (∀ s ∈ snapshot, ∀ g ∈ s.favorite_team_games,
              config.team_ids.any (fun tid => g.involves_team tid) = true) →
            B = []) := by
  intro config now snapshot
  cases snapshot with
  | none =>
    exact ⟨[], [], [], rfl, by simp, by simp, by simp, fun _ _ => rfl⟩
  | some s =>
    cases hv : s.is_valid with
    | false =>
      refine ⟨[], [], [], ?_, by simp, by simp, by simp, fun _ _ => rfl⟩
      rw [refresh_eq_of_invalid config now s hv]
      rfl
    | true =>
      refine ⟨(favorite_display_games config now s).map DisplayItem.game,
        (other_display_games config now s).map DisplayItem.game,
        (teams_for_summaries config now s).map DisplayItem.team,
        refresh_eq_of_valid config now s hv, ?_, ?_, ?_, ?_⟩
      · intro item hitem
        obtain ⟨g, hg, rfl⟩ := List.mem_map.mp hitem
        refine ⟨g, rfl, ?_⟩
        unfold favorite_display_games at hg
        exact (List.mem_filter.mp hg).2
      · intro item hitem
        obtain ⟨g, hg, rfl⟩ := List.mem_map.mp hitem
        refine ⟨g, rfl, ?_⟩
        unfold other_display_games at hg
        have h2 := (List.mem_filter.mp hg).2
        cases hany : config.team_ids.any (fun tid => g.involves_team tid) with
        | false => rfl
        | true =>
          rw [hany] at h2
          exact absurd h2 (by simp)
      · intro item hitem
        obtain ⟨t, _, rfl⟩ := List.mem_map.mp hitem
        exact ⟨t, rfl⟩
      · intro hsa hwf
        have hempty : other_display_games config now s = [] := by
          unfold other_display_games
          rw [List.filter_eq_nil_iff]
          intro g hg hcontra
          unfold filtered_games at hg
          have hcand := (List.mem_filter.mp hg).1
          unfold NFLDataSnapshot.get_games_for_display at hcand
          rw [hsa] at hcand
          simp only [Bool.false_eq_true, if_false, List.append_nil] at hcand
          have hany := hwf s rfl g hcand
          rw [hany] at hcontra
          exact absurd hcontra (by simp)
        rw [hempty]
        rfl

/-- C3 witness: the decomposition at the concrete configuration, clock
and live-game snapshot. -/
theorem c3_witness :
    ∃ A B C, refresh_display_games wCfg wNow (some wSnap) = A ++ B ++ C
      ∧ (∀ item ∈ A, ∃ g, item = DisplayItem.game g
          ∧ wCfg.team_ids.any (fun tid => g.involves_team tid) = true)
      ∧ (∀ item ∈ B, ∃ g, item = DisplayItem.game g
          ∧ wCfg.team_ids.any (fun tid => g.involves_team tid) = false)
      ∧ (∀ item ∈ C, ∃ t, item = DisplayItem.team t)
      ∧ (wCfg.show_all_games = false →
          (∀ s ∈ (some wSnap : Option NFLDataSnapshot), ∀ g ∈ s.favorite_team_games,
            wCfg.team_ids.any (fun tid => g.involves_team tid) = true) →
          B = []) :=
  c3_select_ordering wCfg wNow (some wSnap)
